import Mathlib

/-!
# Verification of the Gemini function-calling Minyan-Finder client

Shallow embedding of the repository's Python sources:

* `src/functions.py` — OpenAPI→tool-declaration conversion, the three tool
  handlers (`handle_create_broadcast`, `handle_find_nearby_broadcasts`,
  `handle_geocode_location`) and the `execute_function` dispatcher, together
  with the static `CITY_COORDINATES` table.
* `src/gemini_client.py` — the `send_message` conversation loop
  (`GeminiFunctionCallingClient.send_message`).
* `src/app.py` — the `/chat` endpoint's append-to-history behaviour.
* `src/models.py` — the `Broadcast` record and its `to_dict` serialization.

Modelling conventions:

* Python floats in this code base are decimal literals with at most four
  fractional digits; they are embedded exactly as integers scaled by `10^4`
  (`40.7128 ↦ 407128`).  `DateTime` values are embedded as `Nat` timestamps.
* JSON values are the inductive `J`; a Python argument mapping
  (`Dict[str, Any]`) is an association list `Args`.
* Outbound HTTP is an explicit environment `Env`: `post`/`getNearby` model
  the two Minyan-API requests (a `requests.exceptions.RequestException` —
  network error, timeout, or a `raise_for_status` 4xx/5xx — is `.exn`), and
  `geo` models the Nominatim geocoding service.
* Fallible Python code (an uncaught exception escaping a handler, or the
  chat script running out of model responses) is modelled with `Option`:
  `none` means the Python call raised / the external model gave no further
  response.
-/

/-- JSON values, as produced by `response.json()` and built by the handlers. -/
inductive J where
  | null
  | jbool (b : Bool)
  | jnum (n : Int)
  | jstr (s : String)
  | jarr (xs : List J)
  | jobj (fields : List (String × J))
deriving Repr

/-- A Python `Dict[str, Any]` argument mapping, as an association list. -/
abbrev Args := List (String × J)

/-- Outcome of one outbound `requests` call to the Minyan REST API:
either a 2xx response whose body parsed as JSON, or a raised
`requests.exceptions.RequestException` (network error, timeout, or the
`raise_for_status` of a 4xx/5xx), carrying the optional
`e.response.status_code` and `e.response.text`. -/
inductive HttpResult where
  | ok (body : J)
  | exn (msg : String) (status : Option Int) (text : Option String)

/-- One geocoding hit returned by the Nominatim service: `lat`/`lon`
(scaled by `10^4`) and the optional `display_name` field. -/
structure GeoResult where
  lat : Int
  lon : Int
  display_name : Option String
deriving Repr

/-- Outcome of one Nominatim lookup: a raised `RequestException`, or the
parsed JSON result list (possibly empty). -/
inductive GeoResp where
  | fail (msg : String)
  | results (rs : List GeoResult)

/-- The external world the handlers talk to: `POST /broadcasts`,
`GET /broadcasts/nearby`, and the Nominatim search endpoint. -/
structure Env where
  post : Args → HttpResult
  getNearby : Args → HttpResult
  geo : String → GeoResp

/-- Normalised handler result dictionary: the keys `success`, `data`,
`error`, `status_code`, `response_text` (a key absent from the Python dict
is `none`). -/
structure FnResult where
  success : Bool
  data : Option J := none
  error : Option String := none
  status_code : Option Int := none
  response_text : Option String := none
deriving Repr

/-- Python `str.strip()` on a character list: drop whitespace from both
ends. -/
def pyStripList (l : List Char) : List Char :=
  ((l.dropWhile Char.isWhitespace).reverse.dropWhile Char.isWhitespace).reverse

/-- Python `str.strip()`. -/
def pyStrip (s : String) : String :=
  String.mk (pyStripList s.data)

/-- Python `str.lower()` (the strings in this code base are ASCII),
computed characterwise so that it reduces in the kernel. -/
def pyLower (s : String) : String := String.mk (s.data.map Char.toLower)

/-- Python `s.split(c)`, on the character list (single-character
separator). -/
def splitOnChar (c : Char) : List Char → List (List Char)
  | [] => [[]]
  | x :: xs =>
    if x = c then [] :: splitOnChar c xs
    else
      match splitOnChar c xs with
      | h :: t => (x :: h) :: t
      | [] => [[x]]

/-- Python `s.split(c)[0]`: the characters before the first separator. -/
def pySplitHead (c : Char) (s : String) : String :=
  String.mk (s.data.takeWhile (fun x => ¬ x = c))

/-- Python `s.split(c)[-1]`: the characters after the last separator. -/
def pySplitLast (c : Char) (s : String) : String :=
  String.mk ((splitOnChar c s.data).getLastD [])

/-- Python `s.startswith(pre)`. -/
def pyStartsWith (s pre : String) : Bool :=
  pre.data.isPrefixOf s.data

/-- Python `needle in hay` on strings: substring containment. -/
def pyIn (needle hay : String) : Bool :=
  decide (needle.data <:+: hay.data)

/-- `src/functions.py`, `CITY_COORDINATES`: the static
"City, State" → (latitude, longitude) table, coordinates scaled by `10^4`. -/
def CITY_COORDINATES : List (String × Int × Int) := [
  ("New York, NY", 407128, -740060),
  ("Los Angeles, CA", 340522, -1182437),
  ("Chicago, IL", 418781, -876298),
  ("Houston, TX", 297604, -953698),
  ("Phoenix, AZ", 334484, -1120740),
  ("Philadelphia, PA", 399526, -751652),
  ("San Antonio, TX", 294241, -984936),
  ("San Diego, CA", 327157, -1171611),
  ("Dallas, TX", 327767, -967970),
  ("San Jose, CA", 373382, -1218863),
  ("Austin, TX", 302672, -977431),
  ("Jacksonville, FL", 303322, -816557),
  ("Fort Worth, TX", 327555, -973308),
  ("Columbus, OH", 399612, -829988),
  ("Charlotte, NC", 352271, -808431),
  ("San Francisco, CA", 377749, -1224194),
  ("Indianapolis, IN", 397684, -861581),
  ("Seattle, WA", 476062, -1223321),
  ("Denver, CO", 397392, -1049903),
  ("Washington, DC", 389072, -770369),
  ("Boston, MA", 423601, -710589),
  ("El Paso, TX", 317619, -1064850),
  ("Detroit, MI", 423314, -830458),
  ("Nashville, TN", 361627, -867816),
  ("Portland, OR", 455152, -1226784),
  ("Oklahoma City, OK", 354676, -975164),
  ("Las Vegas, NV", 361699, -1151398),
  ("Memphis, TN", 351495, -900490),
  ("Louisville, KY", 382527, -857585),
  ("Baltimore, MD", 392904, -766122),
  ("Milwaukee, WI", 430389, -879065),
  ("Albuquerque, NM", 350844, -1066504),
  ("Tucson, AZ", 322226, -1109747),
  ("Fresno, CA", 367378, -1197871),
  ("Sacramento, CA", 385816, -1214944),
  ("Kansas City, MO", 390997, -945786),
  ("Mesa, AZ", 334152, -1118315),
  ("Atlanta, GA", 337490, -843880),
  ("Omaha, NE", 412565, -959345),
  ("Colorado Springs, CO", 388339, -1048214),
  ("Raleigh, NC", 357796, -786382),
  ("Virginia Beach, VA", 368529, -759780),
  ("Miami, FL", 257617, -801918),
  ("Oakland, CA", 378044, -1222712),
  ("Minneapolis, MN", 449778, -932650),
  ("Tulsa, OK", 361540, -959928),
  ("Cleveland, OH", 414993, -816944),
  ("Wichita, KS", 376872, -973301),
  ("Arlington, TX", 327357, -971081),
  ("New Orleans, LA", 299511, -900715),
  ("Tampa, FL", 279506, -824572),
  ("Honolulu, HI", 213099, -1578581),
  ("Manhattan, NY", 407831, -739712),
  ("Brooklyn, NY", 406782, -739442),
  ("Queens, NY", 407282, -737949),
  ("Bronx, NY", 408448, -738648),
  ("Staten Island, NY", 405795, -741502),
  ("Upper West Side, NY", 407870, -739754),
  ("Upper East Side, NY", 407736, -739566),
  ("Midtown, NY", 407549, -739840),
  ("Lower Manhattan, NY", 407074, -740113),
  ("Harlem, NY", 408176, -739482),
  ("East Village, NY", 407265, -739815),
  ("West Village, NY", 407358, -740036),
  ("SoHo, NY", 407231, -740026),
  ("Tribeca, NY", 407163, -740086),
  ("Chinatown, NY", 407158, -739970),
  ("Little Italy, NY", 407191, -739973),
  ("Greenwich Village, NY", 407336, -740027),
  ("Chelsea, NY", 407465, -740014),
  ("Park Slope, Brooklyn, NY", 406712, -739858),
  ("Williamsburg, Brooklyn, NY", 407081, -739571),
  ("Astoria, Queens, NY", 407700, -739308),
  ("Flushing, Queens, NY", 407654, -738300),
  ("Jamaica, Queens, NY", 407021, -738019),
  ("Long Island City, Queens, NY", 407447, -739485),
  ("Cedarhurst, NY", 406218, -737246),
  ("Lawrence, NY", 406157, -737296),
  ("Woodmere, NY", 406320, -737146),
  ("Inwood, NY", 406220, -737468),
  ("Far Rockaway, NY", 406054, -737557),
  ("Five Towns, NY", 406218, -737246),
  ("Great Neck, NY", 407873, -737262),
  ("Roslyn, NY", 408007, -736504),
  ("Port Washington, NY", 408257, -736982),
  ("Garden City, NY", 407268, -736343),
  ("Rockville Centre, NY", 406587, -736412),
  ("Lynbrook, NY", 406548, -736718),
  ("Valley Stream, NY", 406643, -737085),
  ("Oceanside, NY", 406384, -736401),
  ("Baldwin, NY", 406565, -736093),
  ("Merrick, NY", 406629, -735515),
  ("Bellmore, NY", 406687, -735271),
  ("Wantagh, NY", 406743, -735101),
  ("Seaford, NY", 406659, -735022),
  ("Massapequa, NY", 406807, -734743),
  ("Amityville, NY", 406789, -734171),
  ("Lindenhurst, NY", 406868, -733735),
  ("West Babylon, NY", 407432, -733537),
  ("Deer Park, NY", 407618, -733293),
  ("Commack, NY", 408429, -732929),
  ("Huntington Station, NY", 408534, -734115),
  ("Dix Hills, NY", 408048, -733362),
  ("Plainview, NY", 407765, -734673),
  ("Syosset, NY", 408262, -735021),
  ("Hicksville, NY", 407684, -735251),
  ("Levittown, NY", 407259, -735143),
  ("Bethpage, NY", 407443, -734821),
  ("Farmingdale, NY", 407326, -734454),
  ("East Meadow, NY", 407140, -735590),
  ("Uniondale, NY", 407004, -735929),
  ("Hempstead, NY", 407062, -736187),
  ("Freeport, NY", 406576, -735832),
  ("Long Beach, NY", 405884, -736580),
  ("Buffalo, NY", 428864, -788784),
  ("Rochester, NY", 431566, -776088),
  ("Yonkers, NY", 409312, -738988),
  ("Syracuse, NY", 430481, -761474),
  ("Albany, NY", 426526, -737562),
  ("New Rochelle, NY", 409115, -737824),
  ("Mount Vernon, NY", 409126, -738371),
  ("Schenectady, NY", 428142, -739396),
  ("Utica, NY", 431009, -752327),
  ("White Plains, NY", 410340, -737629),
  ("Troy, NY", 427284, -736918),
  ("Niagara Falls, NY", 430962, -790377),
  ("Binghamton, NY", 420987, -759180),
  ("Rome, NY", 432128, -754557),
  ("Ithaca, NY", 424434, -765016),
  ("Poughkeepsie, NY", 417004, -739210),
  ("Jamestown, NY", 420970, -792353),
  ("Elmira, NY", 420898, -768077),
  ("Watertown, NY", 439748, -759108),
  ("Auburn, NY", 429334, -765666),
  ("Glen Cove, NY", 408623, -736337),
  ("Plattsburgh, NY", 446995, -734529),
  ("Batavia, NY", 430006, -781923),
  ("Oswego, NY", 434565, -765105),
  ("Kingston, NY", 419270, -740000),
  ("Middletown, NY", 414459, -744229),
  ("Oneonta, NY", 424529, -750638),
  ("Cortland, NY", 426012, -761805),
  ("Glens Falls, NY", 433095, -736440),
  ("Lockport, NY", 431706, -786903)]

/-- The success payload built by `handle_geocode_location`
(`src/functions.py:360-369, 376-385, 391-401, 426-435`): the dict with keys
`location`, `latitude`, `longitude`, `display_name`, `source`. -/
def mkGeoSuccess (location : String) (lat lon : Int) (displayName source : String) :
    FnResult :=
  { success := true,
    data := some (.jobj [("location", .jstr location), ("latitude", .jnum lat),
                         ("longitude", .jnum lon), ("display_name", .jstr displayName),
                         ("source", .jstr source)]) }

/-- The partial-match test of `handle_geocode_location`
(`src/functions.py:388-390`): `location_lower == city_name or
location_lower in city.lower() or city.lower() in location_lower`,
where `city_name = city.split(',')[0].strip().lower()`. -/
def partialCityMatch (locLower city : String) : Bool :=
  let cityName := pyLower (pyStrip (pySplitHead ',' city))
  locLower = cityName || pyIn locLower (pyLower city) || pyIn (pyLower city) locLower

/-- `src/functions.py:342-445`, `handle_geocode_location`, with the global
`CITY_COORDINATES` table as an explicit parameter.  Returns the handler's
result dictionary together with the list of queries issued to the external
Nominatim service (so "no network call" is `[]`).  `none` models the
`AttributeError` raised by `.strip()` when the `location` value is present
but not a string. -/
def geocodeWithTable (table : List (String × Int × Int)) (env : Env) (args : Args) :
    Option (FnResult × List String) :=
  match (args.lookup "location").getD (.jstr "") with
  | .jstr raw =>
    let location := pyStrip raw
    some <|
      if location = "" then
        ({ success := false, error := some "Location parameter is required" }, [])
      else
        -- Try exact match first
        match table.lookup location with
        | some (lat, lon) => (mkGeoSuccess location lat lon location "local_map", [])
        | none =>
          -- Try case-insensitive lookup
          let locationLower := pyLower location
          match table.find? (fun e => pyLower e.1 = locationLower) with
          | some (city, lat, lon) => (mkGeoSuccess location lat lon city "local_map", [])
          | none =>
            -- Try partial match (e.g., "Manhattan" matches "Manhattan, NY")
            match table.find? (fun e => partialCityMatch locationLower e.1) with
            | some (city, lat, lon) => (mkGeoSuccess location lat lon city "local_map", [])
            | none =>
              -- Fall back to Nominatim API if not found in local map
              match env.geo location with
              | .fail e =>
                ({ success := false, error := some ("Geocoding failed: " ++ e) }, [location])
              | .results [] =>
                ({ success := false,
                   error := some ("Location \x22" ++ location ++ "\x22 not found") }, [location])
              | .results (r :: _) =>
                (mkGeoSuccess location r.lat r.lon (r.display_name.getD location)
                   "nominatim_api", [location])
  | _ => none

/-- `src/functions.py:342-445`, `handle_geocode_location`. -/
def handleGeocodeLocation (env : Env) (args : Args) : Option (FnResult × List String) :=
  geocodeWithTable CITY_COORDINATES env args

/-- `src/functions.py:296-316`, `handle_create_broadcast`:
`POST {MINYAN_API_BASE_URL}/broadcasts` with the arguments as JSON body;
a `RequestException` becomes a `success=False` dictionary. -/
def handleCreateBroadcast (env : Env) (args : Args) : FnResult :=
  match env.post args with
  | .ok body => { success := true, data := some body }
  | .exn msg status text =>
    { success := false, error := some msg, status_code := status, response_text := text }

/-- `src/functions.py:319-339`, `handle_find_nearby_broadcasts`:
`GET {MINYAN_API_BASE_URL}/broadcasts/nearby` with the arguments as query
parameters; a `RequestException` becomes a `success=False` dictionary. -/
def handleFindNearbyBroadcasts (env : Env) (args : Args) : FnResult :=
  match env.getNearby args with
  | .ok body => { success := true, data := some body }
  | .exn msg status text =>
    { success := false, error := some msg, status_code := status, response_text := text }

/-- `src/functions.py:448-466`, `execute_function`: dispatch on the function
name through the `handlers` dictionary; an unknown name yields the
structured `Unknown function` error.  `none` models a handler raising. -/
def executeFunction (env : Env) (function_name : String) (args : Args) :
    Option FnResult :=
  if function_name = "createBroadcast" then
    some (handleCreateBroadcast env args)
  else if function_name = "findNearbyBroadcasts" then
    some (handleFindNearbyBroadcasts env args)
  else if function_name = "geocodeLocation" then
    (handleGeocodeLocation env args).map Prod.fst
  else
    some { success := false, error := some ("Unknown function: " ++ function_name) }

/-- A model-issued tool call: `function_call.name` and its argument
mapping (`src/gemini_client.py:68-92`). -/
structure FunctionCall where
  name : String
  args : Args
deriving Repr

/-- One part of a model response candidate: either a set (truthy)
`function_call`, or a text part. -/
inductive ContentPart where
  | fc (c : FunctionCall)
  | txt (s : String)
deriving Repr

/-- One model response (the single candidate's `content.parts`).  The real
client always has at least the hosted model's next reply available; a
finite script of these models any terminating interaction. -/
structure ModelResp where
  parts : List ContentPart
deriving Repr

/-- The loop guard of `send_message` (`src/gemini_client.py:60-66`):
`response.candidates[0].content.parts[0]` exists, has a `function_call`
attribute, and that call is truthy — i.e. the first part is a set
function call. -/
def firstCall (r : ModelResp) : Option FunctionCall :=
  match r.parts with
  | .fc c :: _ => some c
  | _ => none

/-- `response.text` (`src/gemini_client.py:151`): the SDK concatenates the
candidate's text parts and raises when there are none, in which case
`hasattr(response, 'text')` is `False` and the code falls back to
`str(response)` (modelled by a fixed placeholder string). -/
def finalText (r : ModelResp) : String :=
  let ts := r.parts.filterMap (fun p => match p with | .txt s => some s | _ => none)
  if ts.isEmpty then "<non-text response>" else String.join ts

/-- One entry of `flow_info['api_responses']`
(`src/gemini_client.py:125-130`): `function_name`, `success`, `data`,
`error`. -/
structure ApiResponse where
  function_name : String
  success : Bool
  data : Option J
  error : Option String
deriving Repr

/-- Build one `api_responses` entry (`src/gemini_client.py:125-130`). -/
def mkApiResp (name : String) (r : FnResult) : ApiResponse :=
  ⟨name, r.success, r.data, r.error⟩

/-- The body of a `function_response` message sent back to the model
(`src/gemini_client.py:132-141`): the handler's `data` on success, else a
dict with the single key `error`. -/
inductive PayloadResp where
  | ok (d : J)
  | err (msg : String)
deriving Repr

/-- One `function_response` message sent back to the model: name and
response body (`src/gemini_client.py:134-141`). -/
structure Payload where
  name : String
  response : PayloadResp
deriving Repr

/-- Build the `function_response` payload (`src/gemini_client.py:134-141`):
`function_result.get('data')` if `success` else
`{'error': function_result.get('error', 'Unknown error')}`. -/
def mkPayload (name : String) (r : FnResult) : Payload :=
  ⟨name, if r.success then .ok (r.data.getD .null) else .err (r.error.getD "Unknown error")⟩

/-- The `flow_info` record of `send_message`
(`src/gemini_client.py:51-56`): `user_message`, `function_calls`,
`api_responses`, `final_response` (initialised `None`, set on exit). -/
structure FlowInfo where
  user_message : String
  function_calls : List FunctionCall
  api_responses : List ApiResponse
  final_response : Option String
deriving Repr

/-- The `while` loop of `send_message` (`src/gemini_client.py:58-158`),
with the current model response `resp`, the model's remaining scripted
responses `rest`, and the accumulated `flow_info`.  Each iteration that
sees a function call as the first part of the response records the call,
executes it, records the result, sends one `function_response` back, and
takes the model's next response.  On a response whose first part is not a
function call, the loop exits and `final_response` is set.  The returned
list is the chronological sequence of `function_response` payloads sent
back to the model; `none` means a handler raised or the script ran out. -/
def runLoop (env : Env) : ModelResp → List ModelResp → FlowInfo →
    Option (FlowInfo × List Payload)
  | resp, rest, flow =>
    match firstCall resp with
    | none => some ({ flow with final_response := some (finalText resp) }, [])
    | some c =>
      match executeFunction env c.name c.args with
      | none => none
      | some r =>
        let flow' := { flow with
          function_calls := flow.function_calls ++ [c],
          api_responses := flow.api_responses ++ [mkApiResp c.name r] }
        match rest with
        | [] => none
        | r2 :: rs =>
          (runLoop env r2 rs flow').map (fun p => (p.1, mkPayload c.name r :: p.2))

/-- `src/gemini_client.py:29-160`, `GeminiFunctionCallingClient.send_message`:
send the user message (the script's head is the model's reply to it), run
the function-calling loop, and return the completed `flow_info` together
with the trace of `function_response` payloads sent back to the model. -/
def sendMessage (env : Env) (user_message : String) (script : List ModelResp) :
    Option (FlowInfo × List Payload) :=
  match script with
  | [] => none
  | r :: rest =>
    runLoop env r rest
      { user_message := user_message, function_calls := [], api_responses := [],
        final_response := none }

/-- `src/app.py:42-69`, the `/chat` endpoint: run `send_message` and append
the flow record to `client.conversation_history`; an exception yields a
500 response and no append.  The `Bool` is whether the call completed
(HTTP 200). -/
def chatCall (env : Env) (hist : List FlowInfo) (msg : String)
    (script : List ModelResp) : List FlowInfo × Bool :=
  match sendMessage env msg script with
  | some (flow, _) => (hist ++ [flow], true)
  | none => (hist, false)

/-- A sequence of `/chat` requests against one session: each request is a
user message plus the hosted model's scripted responses for it. -/
def runChats (env : Env) : List (String × List ModelResp) → List FlowInfo → List FlowInfo
  | [], hist => hist
  | (msg, script) :: rest, hist => runChats env rest (chatCall env hist msg script).1

/-- `src/models.py:16-28`, the `Broadcast` record.  `DateTime` columns are
embedded as `Nat` timestamps; all columns are `nullable=False`. -/
structure Broadcast where
  id : String
  latitude : Int
  longitude : Int
  minyan_type : String
  earliest_time : Nat
  latest_time : Nat
  active : Bool
  created_at : Nat
deriving Repr

/-- `datetime.isoformat() + 'Z'` (`src/models.py:37-40`), with the
timestamp's decimal rendering standing in for the ISO text. -/
def isoZ (t : Nat) : String := toString t ++ "Z"

/-- `src/models.py:30-41`, `Broadcast.to_dict`: the dictionary
serialization (the columns are `nullable=False`, so the `else None`
branches are dead and every field renders). -/
def Broadcast.to_dict (b : Broadcast) : J :=
  .jobj [("id", .jstr b.id), ("latitude", .jnum b.latitude),
         ("longitude", .jnum b.longitude), ("minyanType", .jstr b.minyan_type),
         ("earliestTime", .jstr (isoZ b.earliest_time)),
         ("latestTime", .jstr (isoZ b.latest_time)),
         ("active", .jbool b.active), ("createdAt", .jstr (isoZ b.created_at))]

/-- Modelled from the spec: the external REST service's `POST /broadcasts`
creation of a `Broadcast` row, which is not under `src/` (only the model
declaration `src/models.py` and the client that triggers it are).  Per
spec §3, a broadcast is "created by an external REST call triggered by a
tool invocation" and satisfies the invariant `earliest_time ≤ latest_time`;
creation with an inverted window is rejected. -/
def createBroadcastRecord (id : String) (lat lon : Int) (ty : String)
    (earliest latest now : Nat) : Option Broadcast :=
  if earliest ≤ latest then
    some ⟨id, lat, lon, ty, earliest, latest, true, now⟩
  else
    none

/-- The operations this system performs on an existing `Broadcast` record:
serialization only (spec §3: "never mutated by this system").  Applying an
operation returns the (unchanged) record and the operation's output. -/
inductive BroadcastOp where
  | serialize
deriving Repr

/-- Apply one system operation to a broadcast record. -/
def applyBroadcastOp (b : Broadcast) : BroadcastOp → Broadcast × J
  | .serialize => (b, b.to_dict)

/-- Run a sequence of system operations over a broadcast record. -/
def runBroadcastOps (b : Broadcast) : List BroadcastOp → Broadcast
  | [] => b
  | op :: ops => runBroadcastOps (applyBroadcastOp b op).1 ops

/-- An OpenAPI property (or query-parameter `schema`) as consumed by the
converter (`src/functions.py:191-228, 252-277`): the keys `type`,
`description`, `format`, `enum`, `minimum`, `maximum` (`none` = key
absent).  The numeric bounds in this API's schema are embedded as `Int`. -/
structure PropSchema where
  type? : Option String := none
  description? : Option String := none
  format? : Option String := none
  enum? : Option (List String) := none
  minimum? : Option Int := none
  maximum? : Option Int := none
deriving Repr

/-- An OpenAPI component schema (`src/functions.py:191-197`): the keys
`type`, `required`, `properties`. -/
structure ComponentSchema where
  type? : Option String := none
  required? : Option (List String) := none
  properties? : Option (List (String × PropSchema)) := none
deriving Repr

/-- An OpenAPI operation parameter (`src/functions.py:252-254, 280`):
the keys `name`, `description`, `required`, `schema`. -/
structure OAParam where
  name : String
  description? : Option String := none
  required : Bool := false
  schema? : Option PropSchema := none
deriving Repr

/-- The produced Gemini property declaration: `type`, `description`, and
optional `format`/`enum` keys. -/
structure GProp where
  type : String
  description : String
  format? : Option String := none
  enum? : Option (List String) := none
deriving Repr

/-- The produced JSON-schema-like parameter block: `type`, `properties`,
`required`. -/
structure GSchema where
  type : String
  properties : List (String × GProp)
  required : List String
deriving Repr

/-- The `parameters` value of a produced declaration: either the empty
dict `{}` (a `$ref` outside `#/components/schemas/`) or a schema block. -/
inductive GParams where
  | empty
  | schema (s : GSchema)
deriving Repr

/-- One produced Gemini function declaration: `name`, `description`,
`parameters`. -/
structure GFunction where
  name : String
  description : String
  parameters : GParams
deriving Repr

/-- The constraint texts `f"minimum: {v}"` / `f"maximum: {v}"`
(`src/functions.py:216-221, 268-273`). -/
def constraintTexts (minB maxB : Option Int) : List String :=
  (match minB with | some m => ["minimum: " ++ toString m] | none => []) ++
  (match maxB with | some m => ["maximum: " ++ toString m] | none => [])

/-- Folding numeric bounds into the description
(`src/functions.py:214-224`, duplicated verbatim for query parameters at
`src/functions.py:266-276`): when a `minimum` or `maximum` key is present,
append `" (Constraints: " + ", ".join(constraints) + ")"` and `strip()`
the result; otherwise leave the description unchanged. -/
def applyConstraints (desc : String) (minB maxB : Option Int) : String :=
  match constraintTexts minB maxB with
  | [] => desc
  | cs => pyStrip (desc ++ " (Constraints: " ++ String.intercalate ", " cs ++ ")")

/-- The per-property body of `convert_openapi_schema_to_json`
(`src/functions.py:200-226`): defaults `type` to `'string'` and
`description` to `''`, copies `format` and `enum`, folds bounds into the
description. -/
def convertProp (ps : PropSchema) : GProp :=
  { type := ps.type?.getD "string",
    description := applyConstraints (ps.description?.getD "") ps.minimum? ps.maximum?,
    format? := ps.format?,
    enum? := ps.enum? }

/-- `src/functions.py:191-228`, `convert_openapi_schema_to_json`:
defaults `type` to `'object'` and `required` to `[]`; converts each
property (no `properties` key yields an empty property map). -/
def convertOpenapiSchemaToJson (c : ComponentSchema) : GSchema :=
  { type := c.type?.getD "object",
    required := c.required?.getD [],
    properties :=
      match c.properties? with
      | some props => props.map (fun p => (p.1, convertProp p.2))
      | none => [] }

/-- The per-parameter conversion for `findNearbyBroadcasts`
(`src/functions.py:252-278`): `description` comes from the parameter, the
rest from `param.get('schema', {})`. -/
def convertParam (p : OAParam) : GProp :=
  let psch := p.schema?.getD {}
  { type := psch.type?.getD "string",
    description := applyConstraints (p.description?.getD "") psch.minimum? psch.maximum?,
    format? := psch.format?,
    enum? := psch.enum? }

/-- The `post` operation of `paths['/broadcasts']`
(`src/functions.py:231-241`): its `description` key and the chained
`requestBody.content['application/json'].schema.$ref` lookup (with `''`
defaults). -/
structure PostOp where
  description? : Option String := none
  requestSchemaRef : String := ""
deriving Repr

/-- The `get` operation of `paths['/broadcasts/nearby']`
(`src/functions.py:244-246`): its `description` key and parameter list. -/
structure GetOp where
  description? : Option String := none
  parameters : List OAParam := []
deriving Repr

/-- The slices of the loaded OpenAPI document that
`convert_openapi_to_gemini_functions` reads (`src/functions.py:178-180,
231, 244`): presence of the two path operations, and
`components.schemas`. -/
structure OpenAPISpec where
  broadcastsPost? : Option PostOp := none
  nearbyGet? : Option GetOp := none
  componentSchemas : List (String × ComponentSchema) := []
deriving Repr

/-- The inner `convert_schema` helper (`src/functions.py:183-189`):
resolve a `#/components/schemas/` reference (missing component defaults
to the empty dict); any other reference yields the empty dict `{}`. -/
def convertSchemaRef (spec : OpenAPISpec) (ref : String) : GParams :=
  if pyStartsWith ref "#/components/schemas/" then
    .schema (convertOpenapiSchemaToJson
      ((spec.componentSchemas.lookup (pySplitLast '/' ref)).getD {}))
  else
    .empty

/-- The `createBroadcast` declaration produced from the
`POST /broadcasts` request body schema (`src/functions.py:230-241`):
present exactly when the path, the operation and a nonempty `$ref` are. -/
def createFunctionPart (spec : OpenAPISpec) : List GFunction :=
  match spec.broadcastsPost? with
  | none => []
  | some op =>
    if op.requestSchemaRef = "" then []
    else
      [{ name := "createBroadcast",
         description := op.description?.getD "Create a new broadcast when looking for a minyan.",
         parameters := convertSchemaRef spec op.requestSchemaRef }]

/-- The `findNearbyBroadcasts` declaration produced from the
`GET /broadcasts/nearby` parameter list (`src/functions.py:243-291`). -/
def findNearbyFunctionPart (spec : OpenAPISpec) : List GFunction :=
  match spec.nearbyGet? with
  | none => []
  | some gop =>
    [{ name := "findNearbyBroadcasts",
       description := gop.description?.getD "Find people near you who need the same minyan.",
       parameters := .schema
         { type := "object",
           properties := gop.parameters.map (fun p => (p.name, convertParam p)),
           required := (gop.parameters.filter (fun p => p.required)).map (fun p => p.name) } }]

/-- `src/functions.py:173-293`, `convert_openapi_to_gemini_functions`:
the two declarations appended in source order. -/
def convertOpenapiToGeminiFunctions (spec : OpenAPISpec) : List GFunction :=
  createFunctionPart spec ++ findNearbyFunctionPart spec

/-! ## Helper lemmas -/

theorem lookup_of_mem_nodup {β : Type} (l : List (String × β)) (k : String) (v : β)
    (hnd : (l.map Prod.fst).Nodup) (hmem : (k, v) ∈ l) : l.lookup k = some v := by
  induction l with
  | nil => cases hmem
  | cons hd tl ih =>
    rcases List.mem_cons.1 hmem with heq | hmem'
    · rw [← heq]
      simp [List.lookup]
    · obtain ⟨k1, v1⟩ := hd
      have hk : (k == k1) = false := by
        apply beq_eq_false_iff_ne.2
        intro h
        apply (List.nodup_cons.1 hnd).1
        rw [← h]
        exact List.mem_map.2 ⟨(k, v), hmem', rfl⟩
      simp only [List.lookup, hk]
      exact ih (List.nodup_cons.1 hnd).2 hmem'

theorem suffix_dropWhile_append (p : Char → Bool) (l rest : List Char)
    (h : ∀ c, rest.head? = some c → p c = false) :
    rest <:+ (l ++ rest).dropWhile p := by
  induction l with
  | nil =>
    cases rest with
    | nil => simp
    | cons c cs =>
      rw [List.nil_append, List.dropWhile_cons_of_neg (by simp [h c rfl])]
  | cons a l ih =>
    by_cases hpa : p a = true
    · rwa [List.cons_append, List.dropWhile_cons_of_pos hpa]
    · rw [List.cons_append, List.dropWhile_cons_of_neg (by simpa using hpa)]
      exact (List.suffix_append l rest).trans (List.suffix_cons a (l ++ rest))

theorem suffix_pyStripList (d mid : List Char) (c0 c1 : Char)
    (h0 : c0.isWhitespace = false) (h1 : c1.isWhitespace = false) :
    (c0 :: (mid ++ [c1])) <:+ pyStripList (d ++ (c0 :: (mid ++ [c1]))) := by
  set rest := c0 :: (mid ++ [c1]) with hrest
  obtain ⟨pre, hx⟩ := suffix_dropWhile_append Char.isWhitespace d rest
    (by intro c hc; rw [hrest] at hc; simp at hc; rw [← hc]; exact h0)
  have hrev : (pre ++ rest).reverse = c1 :: (mid.reverse ++ (c0 :: pre.reverse)) := by
    rw [hrest]
    simp
  unfold pyStripList
  rw [← hx, hrev, List.dropWhile_cons_of_neg (by simp [h1]), ← hrev, List.reverse_reverse]
  exact ⟨pre, rfl⟩

set_option maxRecDepth 10000 in
theorem city_keys_nodup : (CITY_COORDINATES.map Prod.fst).Nodup := by decide

set_option maxRecDepth 10000 in
theorem city_keys_stripped :
    ∀ p ∈ CITY_COORDINATES, pyStrip p.1 = p.1 ∧ ¬ p.1 = "" := by decide

theorem geocode_exact_match (table : List (String × Int × Int)) (env : Env)
    (k : String) (lat lon : Int)
    (hstrip : pyStrip k = k) (hne : ¬ k = "")
    (hlookup : table.lookup k = some (lat, lon)) :
    geocodeWithTable table env [("location", .jstr k)] =
      some (mkGeoSuccess k lat lon k "local_map", []) := by
  unfold geocodeWithTable
  simp only [List.lookup, beq_self_eq_true, Option.getD_some, hstrip, hne, hlookup]
  simp [hne, hlookup]

/-- A fixed benign environment, used only to instantiate theorems at
concrete inputs. -/
def wEnv : Env := ⟨fun _ => .ok .null, fun _ => .ok .null, fun _ => .results []⟩

/-! ## The claims -/

/-- C3: for every function name other than `createBroadcast`,
`findNearbyBroadcasts` and `geocodeLocation`, and every argument mapping,
`execute_function` returns `success=False` with an error message naming
the unknown function, and does not raise (the result is `some _`). -/
theorem execute_unknown_function (env : Env) (name : String) (args : Args)
    (h1 : ¬ name = "createBroadcast") (h2 : ¬ name = "findNearbyBroadcasts")
    (h3 : ¬ name = "geocodeLocation") :
    executeFunction env name args =
      some { success := false, error := some ("Unknown function: " ++ name) } := by
  unfold executeFunction
  rw [if_neg h1, if_neg h2, if_neg h3]

/-- Witness for C3 at the concrete unknown name `"deleteBroadcast"`. -/
theorem execute_unknown_function_witness :
    executeFunction wEnv "deleteBroadcast" [] =
      some { success := false, error := some ("Unknown function: " ++ "deleteBroadcast") } :=
  execute_unknown_function wEnv "deleteBroadcast" [] (by decide) (by decide) (by decide)

/-- C4: for every place name appearing verbatim as a key of
`CITY_COORDINATES`, `handle_geocode_location` succeeds with exactly that
entry's coordinates and `source="local_map"`, issuing no request to the
external geocoding service (the request trace is `[]`). -/
theorem geocode_local_map_hit (env : Env) (k : String) (lat lon : Int)
    (hmem : (k, lat, lon) ∈ CITY_COORDINATES) :
    handleGeocodeLocation env [("location", .jstr k)] =
      some (mkGeoSuccess k lat lon k "local_map", []) := by
  have hkey := city_keys_stripped (k, lat, lon) hmem
  unfold handleGeocodeLocation
  exact geocode_exact_match CITY_COORDINATES env k lat lon hkey.1 hkey.2
    (lookup_of_mem_nodup CITY_COORDINATES k (lat, lon) city_keys_nodup hmem)

/-- Witness for C4 at the table's first entry (`"New York, NY"`). -/
theorem geocode_local_map_hit_witness :
    handleGeocodeLocation wEnv [("location", .jstr "New York, NY")] =
      some (mkGeoSuccess "New York, NY" 407128 (-740060) "New York, NY" "local_map", []) :=
  geocode_local_map_hit wEnv "New York, NY" 407128 (-740060) (by decide)

/-- C10: for every argument mapping whose `location` value is missing,
or is a string that is empty or whitespace-only, `handle_geocode_location`
returns `success=False` with `"Location parameter is required"`, for every
table (so the static city table is not consulted) and with no external
request. -/
theorem geocode_missing_location (table : List (String × Int × Int)) (env : Env)
    (args : Args)
    (h : args.lookup "location" = none ∨
         ∃ s, args.lookup "location" = some (.jstr s) ∧ pyStrip s = "") :
    geocodeWithTable table env args =
      some ({ success := false, error := some "Location parameter is required" }, []) := by
  unfold geocodeWithTable
  rcases h with h | ⟨s, hs, hstrip⟩
  · rw [h]
    simp [pyStrip, pyStripList]
  · rw [hs]
    simp [hstrip]

/-- Witness for C10 at the whitespace-only location `"   "`. -/
theorem geocode_missing_location_witness :
    geocodeWithTable CITY_COORDINATES wEnv [("location", .jstr "   ")] =
      some ({ success := false, error := some "Location parameter is required" }, []) :=
  geocode_missing_location CITY_COORDINATES wEnv [("location", .jstr "   ")]
    (Or.inr ⟨"   ", rfl, by decide⟩)

/-- The three local-table match phases of `handle_geocode_location` all
miss for `loc`: no exact key, no case-insensitive key, no partial match. -/
def NoLocalMatch (table : List (String × Int × Int)) (loc : String) : Prop :=
  table.lookup loc = none ∧
  table.find? (fun e => pyLower e.1 = pyLower loc) = none ∧
  table.find? (fun e => partialCityMatch (pyLower loc) e.1) = none

/-- C5 (amended): for every non-empty place name that matches no table
entry exactly, case-insensitively, or partially, `handle_geocode_location`
issues exactly one external geocoding lookup (the request trace is the
single query `[pyStrip raw]`, no retries) and surfaces the first result's
coordinates on success, a not-found error on an empty result list, or a
geocoding-failed error when the request raises. -/
theorem geocode_network_fallback (table : List (String × Int × Int)) (env : Env)
    (raw : String)
    (hne : ¬ pyStrip raw = "") (hnm : NoLocalMatch table (pyStrip raw)) :
    (∀ e, env.geo (pyStrip raw) = .fail e →
       geocodeWithTable table env [("location", .jstr raw)] =
         some ({ success := false, error := some ("Geocoding failed: " ++ e) },
               [pyStrip raw])) ∧
    (env.geo (pyStrip raw) = .results [] →
       geocodeWithTable table env [("location", .jstr raw)] =
         some ({ success := false,
                 error := some ("Location \x22" ++ pyStrip raw ++ "\x22 not found") },
               [pyStrip raw])) ∧
    (∀ r rs, env.geo (pyStrip raw) = .results (r :: rs) →
       geocodeWithTable table env [("location", .jstr raw)] =
         some (mkGeoSuccess (pyStrip raw) r.lat r.lon
                 (r.display_name.getD (pyStrip raw)) "nominatim_api",
               [pyStrip raw])) := by
  obtain ⟨h1, h2, h3⟩ := hnm
  refine ⟨fun e hg => ?_, fun hg => ?_, fun r rs hg => ?_⟩ <;>
    · unfold geocodeWithTable
      simp [List.lookup, hne, h1, h2, h3, hg]

/-- Witness for C5 (amended) at the concrete location `"Minsk"` against
the real `CITY_COORDINATES` table and an environment whose geocoding
service returns no results. -/
theorem geocode_network_fallback_witness :
    geocodeWithTable CITY_COORDINATES wEnv [("location", .jstr "Minsk")] =
      some ({ success := false,
              error := some ("Location \x22" ++ pyStrip "Minsk" ++ "\x22 not found") },
            [pyStrip "Minsk"]) :=
  (geocode_network_fallback CITY_COORDINATES wEnv "Minsk" (by decide)
    ⟨by decide, by decide, by decide⟩).2.1 rfl

/-- C5 counterexample: `"new york, ny"` is a non-empty place name absent
from the static table's keys, yet `handle_geocode_location` resolves it
locally (case-insensitive match, `source="local_map"`) and issues zero
external lookup calls — not the "exactly one" the claim states. -/
theorem geocode_absent_key_no_network :
    ("new york, ny" ∉ CITY_COORDINATES.map Prod.fst) ∧
    ¬ pyStrip "new york, ny" = "" ∧
    handleGeocodeLocation wEnv [("location", .jstr "new york, ny")] =
      some (mkGeoSuccess "new york, ny" 407128 (-740060) "New York, NY" "local_map",
            []) := by
  refine ⟨by decide, by decide, ?_⟩
  rfl

/-- Default result used only to express `Option.getD` in loop
characterizations (never reached when the run returned `some`). -/
def dfltFnResult : FnResult := { success := false }

/-- Characterization of the `send_message` loop: a successful run consumes
a prefix of `n` responses whose FIRST part is a function call, executes
exactly those first calls in order, records one api-response and sends one
payload per executed call, and stops at the first response whose first
part is not a function call, taking its text as the final response. -/
theorem runLoop_exit (env : Env) (resp : ModelResp) (rest : List ModelResp)
    (flow : FlowInfo) (h : firstCall resp = none) :
    runLoop env resp rest flow =
      some ({ flow with final_response := some (finalText resp) }, []) := by
  rw [runLoop, h]

theorem runLoop_raise (env : Env) (resp : ModelResp) (rest : List ModelResp)
    (flow : FlowInfo) (c : FunctionCall) (hfc : firstCall resp = some c)
    (hexec : executeFunction env c.name c.args = none) :
    runLoop env resp rest flow = none := by
  have h1 : runLoop env resp rest flow =
      (match executeFunction env c.name c.args with
       | none => none
       | some r =>
         match rest with
         | [] => none
         | r2 :: rs =>
           (runLoop env r2 rs
             { flow with function_calls := flow.function_calls ++ [c],
                         api_responses := flow.api_responses ++ [mkApiResp c.name r] }).map
             (fun p => (p.1, mkPayload c.name r :: p.2))) := by
    rw [runLoop, hfc]
  rw [hexec] at h1
  exact h1

theorem runLoop_step_nil (env : Env) (resp : ModelResp) (flow : FlowInfo)
    (c : FunctionCall) (r : FnResult) (hfc : firstCall resp = some c)
    (hexec : executeFunction env c.name c.args = some r) :
    runLoop env resp [] flow = none := by
  have h1 : runLoop env resp [] flow =
      (match executeFunction env c.name c.args with
       | none => none
       | some r1 =>
         match ([] : List ModelResp) with
         | [] => none
         | r2 :: rs =>
           (runLoop env r2 rs
             { flow with function_calls := flow.function_calls ++ [c],
                         api_responses := flow.api_responses ++ [mkApiResp c.name r1] }).map
             (fun p => (p.1, mkPayload c.name r1 :: p.2))) := by
    rw [runLoop, hfc]
  rw [hexec] at h1
  exact h1

theorem runLoop_step_cons (env : Env) (resp r2 : ModelResp) (rs : List ModelResp)
    (flow : FlowInfo) (c : FunctionCall) (r : FnResult)
    (hfc : firstCall resp = some c)
    (hexec : executeFunction env c.name c.args = some r) :
    runLoop env resp (r2 :: rs) flow =
      (runLoop env r2 rs
        { flow with function_calls := flow.function_calls ++ [c],
                    api_responses := flow.api_responses ++ [mkApiResp c.name r] }).map
        (fun p => (p.1, mkPayload c.name r :: p.2)) := by
  have h1 : runLoop env resp (r2 :: rs) flow =
      (match executeFunction env c.name c.args with
       | none => none
       | some r1 =>
         match r2 :: rs with
         | [] => none
         | r3 :: rs1 =>
           (runLoop env r3 rs1
             { flow with function_calls := flow.function_calls ++ [c],
                         api_responses := flow.api_responses ++ [mkApiResp c.name r1] }).map
             (fun p => (p.1, mkPayload c.name r1 :: p.2))) := by
    rw [runLoop, hfc]
  rw [hexec] at h1
  exact h1

theorem runLoop_spec (env : Env) :
    ∀ (rest : List ModelResp) (resp : ModelResp) (flow : FlowInfo)
      (fl : FlowInfo) (pl : List Payload),
      runLoop env resp rest flow = some (fl, pl) →
      ∃ n stop,
        n ≤ rest.length ∧
        (∀ r ∈ (resp :: rest).take n, (firstCall r).isSome = true) ∧
        ((resp :: rest).drop n).head? = some stop ∧
        firstCall stop = none ∧
        fl.user_message = flow.user_message ∧
        fl.function_calls =
          flow.function_calls ++ ((resp :: rest).take n).filterMap firstCall ∧
        fl.api_responses = flow.api_responses ++
          (((resp :: rest).take n).filterMap firstCall).map
            (fun c => mkApiResp c.name
              ((executeFunction env c.name c.args).getD dfltFnResult)) ∧
        pl = (((resp :: rest).take n).filterMap firstCall).map
            (fun c => mkPayload c.name
              ((executeFunction env c.name c.args).getD dfltFnResult)) ∧
        fl.final_response = some (finalText stop) := by
  intro rest
  induction rest with
  | nil =>
    intro resp flow fl pl h
    cases hfc : firstCall resp with
    | none =>
      rw [runLoop_exit env resp [] flow hfc] at h
      simp only [Option.some.injEq, Prod.mk.injEq] at h
      obtain ⟨hfl, hpl⟩ := h
      refine ⟨0, resp, by simp, by simp, by simp, hfc, ?_, ?_, ?_, ?_, ?_⟩ <;>
        simp [← hfl, ← hpl]
    | some c =>
      cases hexec : executeFunction env c.name c.args with
      | none => rw [runLoop_raise env resp [] flow c hfc hexec] at h; cases h
      | some r => rw [runLoop_step_nil env resp flow c r hfc hexec] at h; cases h
  | cons r2 rs ih =>
    intro resp flow fl pl h
    cases hfc : firstCall resp with
    | none =>
      rw [runLoop_exit env resp (r2 :: rs) flow hfc] at h
      simp only [Option.some.injEq, Prod.mk.injEq] at h
      obtain ⟨hfl, hpl⟩ := h
      refine ⟨0, resp, by simp, by simp, by simp, hfc, ?_, ?_, ?_, ?_, ?_⟩ <;>
        simp [← hfl, ← hpl]
    | some c =>
      cases hexec : executeFunction env c.name c.args with
      | none => rw [runLoop_raise env resp (r2 :: rs) flow c hfc hexec] at h; cases h
      | some r =>
        rw [runLoop_step_cons env resp r2 rs flow c r hfc hexec] at h
        rw [Option.map_eq_some'] at h
        obtain ⟨⟨fl', pl'⟩, hrec, heq⟩ := h
        simp only [Prod.mk.injEq] at heq
        obtain ⟨hfl, hpl⟩ := heq
        obtain ⟨n', stop, hlen, hall, hstop, hnone, husr, hcalls, hapis, hpl', hfin⟩ :=
          ih r2 _ fl' pl' hrec
        refine ⟨n' + 1, stop, by simpa using Nat.succ_le_succ hlen, ?_, ?_, hnone,
          ?_, ?_, ?_, ?_, ?_⟩
        · intro r hr
          rcases List.mem_cons.1 (by simpa using hr) with rfl | hr'
          · simp [hfc]
          · exact hall r hr'
        · simpa using hstop
        · rw [← hfl]; simpa using husr
        · rw [← hfl, hcalls]
          simp [hfc, List.append_assoc]
        · rw [← hfl, hapis]
          simp [hfc, hexec, List.append_assoc]
        · rw [← hpl, hpl']
          simp [hfc, hexec]
        · rw [← hfl]; exact hfin

/-- C2 (amended): on every completed `send_message` run, the loop executes
exactly the FIRST function call of each model response whose first part is
a function call (one execution and one returned result per response, in
order), and repeats until the first response whose first part is not a
function call, whose text becomes the final answer. -/
theorem send_message_first_call_only (env : Env) (msg : String)
    (script : List ModelResp) (fl : FlowInfo) (pl : List Payload)
    (h : sendMessage env msg script = some (fl, pl)) :
    ∃ n stop,
      (∀ r ∈ script.take n, (firstCall r).isSome = true) ∧
      (script.drop n).head? = some stop ∧
      firstCall stop = none ∧
      fl.user_message = msg ∧
      fl.function_calls = (script.take n).filterMap firstCall ∧
      fl.api_responses = fl.function_calls.map
        (fun c => mkApiResp c.name
          ((executeFunction env c.name c.args).getD dfltFnResult)) ∧
      pl = fl.function_calls.map
        (fun c => mkPayload c.name
          ((executeFunction env c.name c.args).getD dfltFnResult)) ∧
      fl.final_response = some (finalText stop) := by
  cases script with
  | nil => cases h
  | cons r rest =>
    rw [sendMessage] at h
    obtain ⟨n, stop, _, hall, hstop, hnone, husr, hcalls, hapis, hpl, hfin⟩ :=
      runLoop_spec env rest r _ fl pl h
    simp only [List.nil_append] at hcalls hapis
    exact ⟨n, stop, hall, hstop, hnone, husr, hcalls, by rw [hcalls]; exact hapis,
      by rw [hcalls]; exact hpl, hfin⟩

/-- Witness for C2 (amended): a two-round run (one `createBroadcast` call,
then a text reply) instantiating the characterization. -/
theorem send_message_first_call_only_witness :
    ∃ n stop,
      (∀ r ∈ ([⟨[.fc ⟨"createBroadcast", []⟩]⟩, ⟨[.txt "ok"]⟩] : List ModelResp).take n,
        (firstCall r).isSome = true) ∧
      (([⟨[.fc ⟨"createBroadcast", []⟩]⟩, ⟨[.txt "ok"]⟩] : List ModelResp).drop n).head? =
        some stop ∧
      firstCall stop = none ∧
      FlowInfo.user_message
        { user_message := "m", function_calls := [⟨"createBroadcast", []⟩],
          api_responses := [⟨"createBroadcast", true, some .null, none⟩],
          final_response := some "ok" } = "m" ∧
      FlowInfo.function_calls
        { user_message := "m", function_calls := [⟨"createBroadcast", []⟩],
          api_responses := [⟨"createBroadcast", true, some .null, none⟩],
          final_response := some "ok" } =
        (([⟨[.fc ⟨"createBroadcast", []⟩]⟩, ⟨[.txt "ok"]⟩] : List ModelResp).take n).filterMap
          firstCall ∧
      FlowInfo.api_responses
        { user_message := "m", function_calls := [⟨"createBroadcast", []⟩],
          api_responses := [⟨"createBroadcast", true, some .null, none⟩],
          final_response := some "ok" } =
        (FlowInfo.function_calls
          { user_message := "m", function_calls := [⟨"createBroadcast", []⟩],
            api_responses := [⟨"createBroadcast", true, some .null, none⟩],
            final_response := some "ok" }).map
          (fun c => mkApiResp c.name
            ((executeFunction wEnv c.name c.args).getD dfltFnResult)) ∧
      [(⟨"createBroadcast", .ok .null⟩ : Payload)] =
        (FlowInfo.function_calls
          { user_message := "m", function_calls := [⟨"createBroadcast", []⟩],
            api_responses := [⟨"createBroadcast", true, some .null, none⟩],
            final_response := some "ok" }).map
          (fun c => mkPayload c.name
            ((executeFunction wEnv c.name c.args).getD dfltFnResult)) ∧
      FlowInfo.final_response
        { user_message := "m", function_calls := [⟨"createBroadcast", []⟩],
          api_responses := [⟨"createBroadcast", true, some .null, none⟩],
          final_response := some "ok" } = some (finalText stop) :=
  send_message_first_call_only wEnv "m"
    [⟨[.fc ⟨"createBroadcast", []⟩]⟩, ⟨[.txt "ok"]⟩]
    { user_message := "m", function_calls := [⟨"createBroadcast", []⟩],
      api_responses := [⟨"createBroadcast", true, some .null, none⟩],
      final_response := some "ok" }
    [⟨"createBroadcast", .ok .null⟩] rfl

/-- The function calls requested anywhere in a model response (all of its
parts, not just the first). -/
def requestedCalls (r : ModelResp) : List FunctionCall :=
  r.parts.filterMap (fun p => match p with | .fc c => some c | _ => none)

/-- A model response whose single candidate carries TWO function-call
parts (a parallel tool-call response). -/
def multiCallResp : ModelResp :=
  ⟨[.fc ⟨"createBroadcast", []⟩, .fc ⟨"findNearbyBroadcasts", []⟩]⟩

/-- C2 counterexample: a response requesting two function calls, followed
by a text reply.  The loop executes only the first requested call — the
completed flow records a single call and a single result, and only one
payload is sent back — so it does not execute every function call
requested in the response. -/
theorem send_message_skips_second_call :
    requestedCalls multiCallResp =
      [⟨"createBroadcast", []⟩, ⟨"findNearbyBroadcasts", []⟩] ∧
    sendMessage wEnv "m" [multiCallResp, ⟨[.txt "done"]⟩] =
      some ({ user_message := "m",
              function_calls := [⟨"createBroadcast", []⟩],
              api_responses := [⟨"createBroadcast", true, some .null, none⟩],
              final_response := some "done" },
            [⟨"createBroadcast", .ok .null⟩]) := by
  exact ⟨rfl, rfl⟩

/-- Modelled from the spec: validity of `createBroadcast` arguments — the
coordinate ranges, minyan-type enumeration and ordered time window that
the external OpenAPI document declares (the `openapi.yaml` file is not
under `src/`).  Latitude in [-90, 90] and longitude in [-180, 180]
(scaled by `10^4`), `minyanType` one of the three services, and the ISO
time texts in order (lexicographic comparison). -/
def ValidBroadcastArgs (lat lon : Int) (ty te tl : String) : Prop :=
  -900000 ≤ lat ∧ lat ≤ 900000 ∧ -1800000 ≤ lon ∧ lon ≤ 1800000 ∧
  (ty = "shacharit" ∨ ty = "mincha" ∨ ty = "maariv") ∧ te.data ≤ tl.data

/-- The `createBroadcast` argument mapping built from coordinates, a
minyan type and a time window. -/
def broadcastArgs (lat lon : Int) (ty te tl : String) : Args :=
  [("latitude", .jnum lat), ("longitude", .jnum lon), ("minyanType", .jstr ty),
   ("earliestTime", .jstr te), ("latestTime", .jstr tl)]

/-- C1: for a model that first requests `createBroadcast` with valid
lat/long/type/time-window arguments, then `findNearbyBroadcasts` near the
same coordinates, and then replies with plain text, `send_message`
executes the two calls in that order, appends both call records and both
results to the flow record in that order, and terminates with the
plain-text reply as `final_response`. -/
theorem send_message_create_then_find (env : Env) (msg : String)
    (lat lon : Int) (ty te tl : String) (a2 : Args) (s : String)
    (_hv : ValidBroadcastArgs lat lon ty te tl)
    (_hlat : ("latitude", J.jnum lat) ∈ a2) (_hlon : ("longitude", J.jnum lon) ∈ a2) :
    sendMessage env msg
      [⟨[.fc ⟨"createBroadcast", broadcastArgs lat lon ty te tl⟩]⟩,
       ⟨[.fc ⟨"findNearbyBroadcasts", a2⟩]⟩,
       ⟨[.txt s]⟩] =
      some ({ user_message := msg,
              function_calls :=
                [⟨"createBroadcast", broadcastArgs lat lon ty te tl⟩,
                 ⟨"findNearbyBroadcasts", a2⟩],
              api_responses :=
                [mkApiResp "createBroadcast"
                   (handleCreateBroadcast env (broadcastArgs lat lon ty te tl)),
                 mkApiResp "findNearbyBroadcasts" (handleFindNearbyBroadcasts env a2)],
              final_response := some s },
            [mkPayload "createBroadcast"
               (handleCreateBroadcast env (broadcastArgs lat lon ty te tl)),
             mkPayload "findNearbyBroadcasts" (handleFindNearbyBroadcasts env a2)]) := by
  rfl

/-- Witness for C1 at concrete coordinates, type and window. -/
theorem send_message_create_then_find_witness :
    ValidBroadcastArgs 407128 (-740060) "mincha"
      "2025-03-26T13:00:00Z" "2025-03-26T14:00:00Z" ∧
    sendMessage wEnv "I need a mincha minyan"
      [⟨[.fc ⟨"createBroadcast",
          broadcastArgs 407128 (-740060) "mincha"
            "2025-03-26T13:00:00Z" "2025-03-26T14:00:00Z"⟩]⟩,
       ⟨[.fc ⟨"findNearbyBroadcasts",
          [("latitude", .jnum 407128), ("longitude", .jnum (-740060))]⟩]⟩,
       ⟨[.txt "Created and searched."]⟩] =
      some ({ user_message := "I need a mincha minyan",
              function_calls :=
                [⟨"createBroadcast",
                  broadcastArgs 407128 (-740060) "mincha"
                    "2025-03-26T13:00:00Z" "2025-03-26T14:00:00Z"⟩,
                 ⟨"findNearbyBroadcasts",
                  [("latitude", .jnum 407128), ("longitude", .jnum (-740060))]⟩],
              api_responses :=
                [mkApiResp "createBroadcast"
                   (handleCreateBroadcast wEnv
                     (broadcastArgs 407128 (-740060) "mincha"
                       "2025-03-26T13:00:00Z" "2025-03-26T14:00:00Z")),
                 mkApiResp "findNearbyBroadcasts"
                   (handleFindNearbyBroadcasts wEnv
                     [("latitude", .jnum 407128), ("longitude", .jnum (-740060))])],
              final_response := some "Created and searched." },
            [mkPayload "createBroadcast"
               (handleCreateBroadcast wEnv
                 (broadcastArgs 407128 (-740060) "mincha"
                   "2025-03-26T13:00:00Z" "2025-03-26T14:00:00Z")),
             mkPayload "findNearbyBroadcasts"
               (handleFindNearbyBroadcasts wEnv
                 [("latitude", .jnum 407128), ("longitude", .jnum (-740060))])]) :=
  ⟨by refine ⟨by decide, by decide, by decide, by decide, Or.inr (Or.inl rfl), ?_⟩
      decide,
   send_message_create_then_find wEnv "I need a mincha minyan" 407128 (-740060)
     "mincha" "2025-03-26T13:00:00Z" "2025-03-26T14:00:00Z"
     [("latitude", .jnum 407128), ("longitude", .jnum (-740060))]
     "Created and searched."
     ⟨by decide, by decide, by decide, by decide, Or.inr (Or.inl rfl), by decide⟩
     (List.mem_cons_self _ _)
     (List.mem_cons_of_mem _ (List.mem_cons_self _ _))⟩

/-- C7: a tool execution whose outbound HTTP request fails (network
error, timeout or 4xx/5xx) yields a structured `success=False` result
with an error message — for both REST handlers — rather than raising, and
the conversation loop surfaces that result to the model as a tool-error
payload and continues to the model's next reply. -/
theorem http_failure_is_structured (env : Env) (args : Args) (e : String)
    (st : Option Int) (tx : Option String) (msg s : String)
    (hp : env.post args = .exn e st tx) :
    handleCreateBroadcast env args =
      { success := false, error := some e, status_code := st, response_text := tx } ∧
    (∀ e2 st2 tx2, env.getNearby args = .exn e2 st2 tx2 →
      handleFindNearbyBroadcasts env args =
        { success := false, error := some e2, status_code := st2,
          response_text := tx2 }) ∧
    sendMessage env msg [⟨[.fc ⟨"createBroadcast", args⟩]⟩, ⟨[.txt s]⟩] =
      some ({ user_message := msg,
              function_calls := [⟨"createBroadcast", args⟩],
              api_responses := [⟨"createBroadcast", false, none, some e⟩],
              final_response := some s },
            [⟨"createBroadcast", .err e⟩]) := by
  have hc : handleCreateBroadcast env args =
      { success := false, error := some e, status_code := st, response_text := tx } := by
    unfold handleCreateBroadcast
    rw [hp]
  refine ⟨hc, fun e2 st2 tx2 hg => ?_, ?_⟩
  · unfold handleFindNearbyBroadcasts
    rw [hg]
  · have hexec2 : executeFunction env "createBroadcast" args =
        some { success := false, error := some e, status_code := st,
               response_text := tx } := by
      rw [show executeFunction env "createBroadcast" args =
            some (handleCreateBroadcast env args) from rfl, hc]
    show runLoop env ⟨[.fc ⟨"createBroadcast", args⟩]⟩ [⟨[.txt s]⟩]
        { user_message := msg, function_calls := [], api_responses := [],
          final_response := none } = _
    rw [runLoop_step_cons env ⟨[.fc ⟨"createBroadcast", args⟩]⟩ ⟨[.txt s]⟩ []
          { user_message := msg, function_calls := [], api_responses := [],
            final_response := none } ⟨"createBroadcast", args⟩ _ rfl hexec2,
        runLoop_exit env ⟨[.txt s]⟩ [] _ rfl]
    rfl

/-- Witness for C7 at a concrete failing environment (a 500 from the
broadcasts endpoint). -/
theorem http_failure_is_structured_witness :
    handleCreateBroadcast
      ⟨fun _ => .exn "500 Server Error" (some 500) (some "boom"),
       fun _ => .exn "500 Server Error" (some 500) (some "boom"),
       fun _ => .results []⟩ [] =
      { success := false, error := some "500 Server Error", status_code := some 500,
        response_text := some "boom" } :=
  (http_failure_is_structured
    ⟨fun _ => .exn "500 Server Error" (some 500) (some "boom"),
     fun _ => .exn "500 Server Error" (some 500) (some "boom"),
     fun _ => .results []⟩ [] "500 Server Error" (some 500) (some "boom")
    "m" "sorry about that" rfl).1

theorem runChats_eq (env : Env) :
    ∀ (inputs : List (String × List ModelResp)) (hist : List FlowInfo),
      runChats env inputs hist =
        hist ++ inputs.filterMap (fun i => (sendMessage env i.1 i.2).map Prod.fst) := by
  intro inputs
  induction inputs with
  | nil => intro hist; simp [runChats]
  | cons i rest ih =>
    intro hist
    rw [runChats]
    unfold chatCall
    cases hsm : sendMessage env i.1 i.2 with
    | none => simp [ih, hsm]
    | some p => simp [ih, hsm]

theorem length_filterMap_sendMessage (env : Env)
    (inputs : List (String × List ModelResp)) :
    (inputs.filterMap (fun i => (sendMessage env i.1 i.2).map Prod.fst)).length =
      inputs.countP (fun i => (sendMessage env i.1 i.2).isSome) := by
  induction inputs with
  | nil => rfl
  | cons i rest ih =>
    cases hsm : sendMessage env i.1 i.2 with
    | none => simp [List.countP_cons, hsm, ih]
    | some p => simp [List.countP_cons, hsm, ih]

theorem sendMessage_fields (env : Env) (m : String) (sc : List ModelResp)
    (fl : FlowInfo) (pl : List Payload) (h : sendMessage env m sc = some (fl, pl)) :
    fl.user_message = m ∧ ∃ t, fl.final_response = some t := by
  cases sc with
  | nil => cases h
  | cons r rest =>
    rw [sendMessage] at h
    obtain ⟨_, stop, _, _, _, _, husr, _, _, _, hfin⟩ :=
      runLoop_spec env rest r _ fl pl h
    exact ⟨husr, finalText stop, hfin⟩

/-- C8: after any sequence of `/chat` calls since the last session start,
the conversation history's length equals the number of completed (HTTP
200) send-message calls, and every entry is the flow record of one of
those calls: it carries that call's user message text, its ordered tool
calls and results, and a final text response. -/
theorem conversation_history_tracks_chats (env : Env)
    (inputs : List (String × List ModelResp)) :
    (runChats env inputs []).length =
      inputs.countP (fun i => (sendMessage env i.1 i.2).isSome) ∧
    ∀ fl ∈ runChats env inputs [], ∃ i ∈ inputs, ∃ pl,
      sendMessage env i.1 i.2 = some (fl, pl) ∧
      fl.user_message = i.1 ∧ ∃ t, fl.final_response = some t := by
  rw [runChats_eq env inputs [], List.nil_append]
  refine ⟨length_filterMap_sendMessage env inputs, ?_⟩
  intro fl hfl
  obtain ⟨i, hi, hfi⟩ := List.mem_filterMap.1 hfl
  rw [Option.map_eq_some'] at hfi
  obtain ⟨⟨fl', pl⟩, hsm, hfst⟩ := hfi
  cases hfst
  obtain ⟨husr, ht⟩ := sendMessage_fields env i.1 i.2 _ pl hsm
  exact ⟨i, hi, pl, hsm, husr, ht⟩

/-- Witness for C8: two chat calls (one completing with a text reply, one
failing because the scripted model gives no response) yield a history of
length one. -/
theorem conversation_history_tracks_chats_witness :
    (runChats wEnv [("hello", [⟨[.txt "hi"]⟩]), ("lost", [])] []).length =
      ([("hello", [⟨[.txt "hi"]⟩]), ("lost", [])] :
        List (String × List ModelResp)).countP
        (fun i => (sendMessage wEnv i.1 i.2).isSome) :=
  (conversation_history_tracks_chats wEnv
    [("hello", [⟨[.txt "hi"]⟩]), ("lost", [])]).1

theorem runBroadcastOps_id (b : Broadcast) (ops : List BroadcastOp) :
    runBroadcastOps b ops = b := by
  induction ops with
  | nil => rfl
  | cons op rest ih => cases op; exact ih

/-- C9: every broadcast record created through the (spec-modelled)
external creation step satisfies `earliest_time ≤ latest_time`, and no
sequence of operations this system performs on a broadcast (serialization
is the only one) ever changes the record. -/
theorem broadcast_invariant_immutable (id : String) (lat lon : Int) (ty : String)
    (e l now : Nat) (b : Broadcast) (ops : List BroadcastOp)
    (hcreate : createBroadcastRecord id lat lon ty e l now = some b) :
    b.earliest_time ≤ b.latest_time ∧ runBroadcastOps b ops = b := by
  unfold createBroadcastRecord at hcreate
  by_cases he : e ≤ l
  · rw [if_pos he] at hcreate
    cases hcreate
    exact ⟨he, runBroadcastOps_id _ ops⟩
  · rw [if_neg he] at hcreate
    cases hcreate

/-- Witness for C9 at a concrete creation and a serialize-twice run. -/
theorem broadcast_invariant_immutable_witness :
    (⟨"b1", 407128, -740060, "mincha", 100, 200, true, 50⟩ : Broadcast).earliest_time ≤
      (⟨"b1", 407128, -740060, "mincha", 100, 200, true, 50⟩ : Broadcast).latest_time ∧
    runBroadcastOps ⟨"b1", 407128, -740060, "mincha", 100, 200, true, 50⟩
      [.serialize, .serialize] =
      ⟨"b1", 407128, -740060, "mincha", 100, 200, true, 50⟩ :=
  broadcast_invariant_immutable "b1" 407128 (-740060) "mincha" 100 200 50
    ⟨"b1", 407128, -740060, "mincha", 100, 200, true, 50⟩ [.serialize, .serialize] rfl

theorem min_infix_applyConstraints (d : String) (m : Int) (maxB : Option Int) :
    ("minimum: " ++ toString m).data <:+:
      (applyConstraints d (some m) maxB).data := by
  cases maxB with
  | none =>
    show ("minimum: " ++ toString m).data <:+:
      pyStripList (((d.data ++ (" (Constraints: " : String).data) ++
        ("minimum: " ++ toString m).data) ++ [')'])
    have hAB : ((d.data ++ (" (Constraints: " : String).data) ++
          ("minimum: " ++ toString m).data) ++ [')'] =
        (d.data ++ [' ']) ++
          ('(' :: ((("Constraints: " : String).data ++
            ("minimum: " ++ toString m).data) ++ [')'])) := by
      rw [show (" (Constraints: " : String).data =
            ' ' :: '(' :: ("Constraints: " : String).data from rfl]
      simp
    rw [hAB]
    have hsuf := suffix_pyStripList (d.data ++ [' '])
      (("Constraints: " : String).data ++ ("minimum: " ++ toString m).data) '(' ')'
      (by decide) (by decide)
    have hinf : ("minimum: " ++ toString m).data <:+:
        ('(' :: ((("Constraints: " : String).data ++
          ("minimum: " ++ toString m).data) ++ [')'])) :=
      ⟨'(' :: ("Constraints: " : String).data, [')'], by simp⟩
    exact hinf.trans hsuf.isInfix
  | some M =>
    show ("minimum: " ++ toString m).data <:+:
      pyStripList (((d.data ++ (" (Constraints: " : String).data) ++
        ((("minimum: " ++ toString m) ++ ", ") ++ ("maximum: " ++ toString M)).data) ++
        [')'])
    have hAB : ((d.data ++ (" (Constraints: " : String).data) ++
          ((("minimum: " ++ toString m) ++ ", ") ++ ("maximum: " ++ toString M)).data) ++
          [')'] =
        (d.data ++ [' ']) ++
          ('(' :: ((("Constraints: " : String).data ++
            ((("minimum: " ++ toString m).data ++ (", " : String).data) ++
              ("maximum: " ++ toString M).data)) ++ [')'])) := by
      rw [show (" (Constraints: " : String).data =
            ' ' :: '(' :: ("Constraints: " : String).data from rfl]
      simp
    rw [hAB]
    have hsuf := suffix_pyStripList (d.data ++ [' '])
      (("Constraints: " : String).data ++
        ((("minimum: " ++ toString m).data ++ (", " : String).data) ++
          ("maximum: " ++ toString M).data)) '(' ')' (by decide) (by decide)
    have hinf : ("minimum: " ++ toString m).data <:+:
        ('(' :: ((("Constraints: " : String).data ++
          ((("minimum: " ++ toString m).data ++ (", " : String).data) ++
            ("maximum: " ++ toString M).data)) ++ [')'])) :=
      ⟨'(' :: ("Constraints: " : String).data,
       ((", " : String).data ++ ("maximum: " ++ toString M).data) ++ [')'], by simp⟩
    exact hinf.trans hsuf.isInfix

theorem max_infix_applyConstraints (d : String) (minB : Option Int) (M : Int) :
    ("maximum: " ++ toString M).data <:+:
      (applyConstraints d minB (some M)).data := by
  cases minB with
  | none =>
    show ("maximum: " ++ toString M).data <:+:
      pyStripList (((d.data ++ (" (Constraints: " : String).data) ++
        ("maximum: " ++ toString M).data) ++ [')'])
    have hAB : ((d.data ++ (" (Constraints: " : String).data) ++
          ("maximum: " ++ toString M).data) ++ [')'] =
        (d.data ++ [' ']) ++
          ('(' :: ((("Constraints: " : String).data ++
            ("maximum: " ++ toString M).data) ++ [')'])) := by
      rw [show (" (Constraints: " : String).data =
            ' ' :: '(' :: ("Constraints: " : String).data from rfl]
      simp
    rw [hAB]
    have hsuf := suffix_pyStripList (d.data ++ [' '])
      (("Constraints: " : String).data ++ ("maximum: " ++ toString M).data) '(' ')'
      (by decide) (by decide)
    have hinf : ("maximum: " ++ toString M).data <:+:
        ('(' :: ((("Constraints: " : String).data ++
          ("maximum: " ++ toString M).data) ++ [')'])) :=
      ⟨'(' :: ("Constraints: " : String).data, [')'], by simp⟩
    exact hinf.trans hsuf.isInfix
  | some m =>
    show ("maximum: " ++ toString M).data <:+:
      pyStripList (((d.data ++ (" (Constraints: " : String).data) ++
        ((("minimum: " ++ toString m) ++ ", ") ++ ("maximum: " ++ toString M)).data) ++
        [')'])
    have hAB : ((d.data ++ (" (Constraints: " : String).data) ++
          ((("minimum: " ++ toString m) ++ ", ") ++ ("maximum: " ++ toString M)).data) ++
          [')'] =
        (d.data ++ [' ']) ++
          ('(' :: ((("Constraints: " : String).data ++
            ((("minimum: " ++ toString m).data ++ (", " : String).data) ++
              ("maximum: " ++ toString M).data)) ++ [')'])) := by
      rw [show (" (Constraints: " : String).data =
            ' ' :: '(' :: ("Constraints: " : String).data from rfl]
      simp
    rw [hAB]
    have hsuf := suffix_pyStripList (d.data ++ [' '])
      (("Constraints: " : String).data ++
        ((("minimum: " ++ toString m).data ++ (", " : String).data) ++
          ("maximum: " ++ toString M).data)) '(' ')' (by decide) (by decide)
    have hinf : ("maximum: " ++ toString M).data <:+:
        ('(' :: ((("Constraints: " : String).data ++
          ((("minimum: " ++ toString m).data ++ (", " : String).data) ++
            ("maximum: " ++ toString M).data)) ++ [')'])) :=
      ⟨('(' :: ("Constraints: " : String).data) ++
        (("minimum: " ++ toString m).data ++ (", " : String).data), [')'], by simp⟩
    exact hinf.trans hsuf.isInfix

theorem createFunctionPart_some (spec : OpenAPISpec) (op : PostOp)
    (h : spec.broadcastsPost? = some op) :
    createFunctionPart spec =
      if op.requestSchemaRef = "" then []
      else
        [{ name := "createBroadcast",
           description :=
             op.description?.getD "Create a new broadcast when looking for a minyan.",
           parameters := convertSchemaRef spec op.requestSchemaRef }] := by
  unfold createFunctionPart
  rw [h]

theorem findNearbyFunctionPart_some (spec : OpenAPISpec) (gop : GetOp)
    (h : spec.nearbyGet? = some gop) :
    findNearbyFunctionPart spec =
      [{ name := "findNearbyBroadcasts",
         description :=
           gop.description?.getD "Find people near you who need the same minyan.",
         parameters := .schema
           { type := "object",
             properties := gop.parameters.map (fun p => (p.name, convertParam p)),
             required :=
               (gop.parameters.filter (fun p => p.required)).map (fun p => p.name) } }] := by
  unfold findNearbyFunctionPart
  rw [h]

theorem properties_convertOpenapiSchemaToJson (comp : ComponentSchema)
    (props : List (String × PropSchema)) (h : comp.properties? = some props) :
    (convertOpenapiSchemaToJson comp).properties =
      props.map (fun p => (p.1, convertProp p.2)) := by
  unfold convertOpenapiSchemaToJson
  rw [h]

/-- C6: for every OpenAPI property or query-parameter schema carrying a
numeric `minimum` and/or `maximum`, the declaration produced by
`convert_openapi_to_gemini_functions` contains each carried bound value
verbatim (as `minimum: v` / `maximum: v`) in that property's description
text — for both the `createBroadcast` request-body properties and the
`findNearbyBroadcasts` query parameters. -/
theorem converted_descriptions_contain_bounds :
    (∀ (spec : OpenAPISpec) (op : PostOp) (comp : ComponentSchema)
       (props : List (String × PropSchema)) (pname : String) (ps : PropSchema),
       spec.broadcastsPost? = some op →
       pyStartsWith op.requestSchemaRef "#/components/schemas/" = true →
       spec.componentSchemas.lookup (pySplitLast '/' op.requestSchemaRef) = some comp →
       comp.properties? = some props →
       (pname, ps) ∈ props →
       ∃ g : GSchema,
         ({ name := "createBroadcast",
            description :=
              op.description?.getD "Create a new broadcast when looking for a minyan.",
            parameters := .schema g } : GFunction) ∈
              convertOpenapiToGeminiFunctions spec ∧
         (pname, convertProp ps) ∈ g.properties ∧
         (∀ m, ps.minimum? = some m →
           ("minimum: " ++ toString m).data <:+: (convertProp ps).description.data) ∧
         (∀ M, ps.maximum? = some M →
           ("maximum: " ++ toString M).data <:+: (convertProp ps).description.data)) ∧
    (∀ (spec : OpenAPISpec) (gop : GetOp) (p : OAParam),
       spec.nearbyGet? = some gop →
       p ∈ gop.parameters →
       ∃ g : GSchema,
         ({ name := "findNearbyBroadcasts",
            description :=
              gop.description?.getD "Find people near you who need the same minyan.",
            parameters := .schema g } : GFunction) ∈
              convertOpenapiToGeminiFunctions spec ∧
         (p.name, convertParam p) ∈ g.properties ∧
         (∀ m, (p.schema?.getD {}).minimum? = some m →
           ("minimum: " ++ toString m).data <:+: (convertParam p).description.data) ∧
         (∀ M, (p.schema?.getD {}).maximum? = some M →
           ("maximum: " ++ toString M).data <:+: (convertParam p).description.data)) := by
  constructor
  · intro spec op comp props pname ps hpost href hcomp hprops hmem
    have hne : ¬ op.requestSchemaRef = "" := by
      intro h0
      rw [h0] at href
      exact absurd href (by decide)
    have hres : convertSchemaRef spec op.requestSchemaRef =
        .schema (convertOpenapiSchemaToJson comp) := by
      unfold convertSchemaRef
      rw [if_pos href, hcomp, Option.getD_some]
    refine ⟨convertOpenapiSchemaToJson comp, ?_, ?_, ?_, ?_⟩
    · unfold convertOpenapiToGeminiFunctions
      apply List.mem_append_left
      rw [createFunctionPart_some spec op hpost, if_neg hne, hres]
      exact List.mem_singleton.2 rfl
    · rw [properties_convertOpenapiSchemaToJson comp props hprops]
      exact List.mem_map_of_mem _ hmem
    · intro m hm
      rw [show (convertProp ps).description =
            applyConstraints (ps.description?.getD "") ps.minimum? ps.maximum? from rfl,
          hm]
      exact min_infix_applyConstraints _ m _
    · intro M hM
      rw [show (convertProp ps).description =
            applyConstraints (ps.description?.getD "") ps.minimum? ps.maximum? from rfl,
          hM]
      exact max_infix_applyConstraints _ _ M
  · intro spec gop p hget hmem
    refine ⟨{ type := "object",
              properties := gop.parameters.map (fun q => (q.name, convertParam q)),
              required :=
                (gop.parameters.filter (fun q => q.required)).map (fun q => q.name) },
            ?_, ?_, ?_, ?_⟩
    · unfold convertOpenapiToGeminiFunctions
      apply List.mem_append_right
      rw [findNearbyFunctionPart_some spec gop hget]
      exact List.mem_singleton.2 rfl
    · exact List.mem_map_of_mem _ hmem
    · intro m hm
      rw [show (convertParam p).description =
            applyConstraints (p.description?.getD "")
              (p.schema?.getD {}).minimum? (p.schema?.getD {}).maximum? from rfl,
          hm]
      exact min_infix_applyConstraints _ m _
    · intro M hM
      rw [show (convertParam p).description =
            applyConstraints (p.description?.getD "")
              (p.schema?.getD {}).minimum? (p.schema?.getD {}).maximum? from rfl,
          hM]
      exact max_infix_applyConstraints _ _ M

/-- A concrete property schema carrying both numeric bounds, used to
instantiate the bound-folding theorem. -/
def wPropSchema : PropSchema :=
  { type? := some "number", description? := some "Latitude of the location",
    minimum? := some (-90), maximum? := some 90 }

/-- A concrete component schema holding `wPropSchema`. -/
def wComp : ComponentSchema :=
  { type? := some "object", required? := some ["latitude"],
    properties? := some [("latitude", wPropSchema)] }

/-- A concrete `POST /broadcasts` operation referencing `wComp`. -/
def wOp : PostOp :=
  { description? := some "Create a broadcast",
    requestSchemaRef := "#/components/schemas/BroadcastRequest" }

/-- A concrete OpenAPI document slice for the witness. -/
def wSpec : OpenAPISpec :=
  { broadcastsPost? := some wOp, nearbyGet? := none,
    componentSchemas := [("BroadcastRequest", wComp)] }

/-- Witness for C6: at the concrete schema `wSpec`, the produced
`latitude` property description contains `minimum: -90` verbatim. -/
theorem converted_descriptions_contain_bounds_witness :
    ("minimum: " ++ toString (-90 : Int)).data <:+:
      (convertProp wPropSchema).description.data := by
  obtain ⟨g, _, _, hmin, _⟩ :=
    converted_descriptions_contain_bounds.1 wSpec wOp wComp
      [("latitude", wPropSchema)] "latitude" wPropSchema rfl (by decide) rfl rfl
      (List.mem_singleton.2 rfl)
  exact hmin (-90) rfl
